import Mathlib

/-!
Shallow embedding of the dockworker error-classification module
(src/errors.rs): the ErrorKind taxonomy, the Error wrapper around a
failure-crate Context, and the per-external-failure-type From
conversions. Raw external failure types are opaque foreign values;
each is modelled as a structure carrying an uninterpreted message
string. The backtrace captured by the failure crate is a runtime
diagnostic with no observable content at this level and is not
modelled; the cause link is.
-/

namespace Dockworker

/-- Opaque model of io::Error. -/
structure IoError where
  msg : String
deriving DecidableEq

/-- Opaque model of env::VarError. -/
structure VarError where
  msg : String
deriving DecidableEq

/-- Opaque model of hyper::Error. -/
structure HyperError where
  msg : String
deriving DecidableEq

/-- Opaque model of serde_json::Error. -/
structure SerdeJsonError where
  msg : String
deriving DecidableEq

/-- Opaque model of docker::DockerError. -/
structure DockerError where
  msg : String
deriving DecidableEq

/-- Opaque model of base64::DecodeError. -/
structure DecodeError where
  msg : String
deriving DecidableEq

/-- Opaque model of response::Error. -/
structure ResponseError where
  msg : String
deriving DecidableEq

/-- Opaque model of http::Error. -/
structure HttpError where
  msg : String
deriving DecidableEq

/-- Opaque model of http::uri::InvalidUri. -/
structure InvalidUri where
  msg : String
deriving DecidableEq

/-- Opaque model of http::uri::InvalidUriParts. -/
structure InvalidUriParts where
  msg : String
deriving DecidableEq

/-- Opaque model of http::header::ToStrError. -/
structure ToStrError where
  msg : String
deriving DecidableEq

/-- Opaque model of mime::FromStrError. -/
structure FromStrError where
  msg : String
deriving DecidableEq

/-- Opaque model of hyper_tls::Error (openssl feature only). -/
structure HyperTlsError where
  msg : String
deriving DecidableEq

/-- Opaque model of openssl::error::ErrorStack (openssl feature only). -/
structure ErrorStack where
  msg : String
deriving DecidableEq

/-- The ErrorKind enum of errors.rs, one constructor per variant,
with the same field names. -/
inductive ErrorKind
  | Io
  | Envvar
  | Hyper
  | Json
  | Docker
  | Base64
  | Response
  | Http
  | HttpUriInvalidUri
  | HttpUriInvalidUriParts
  | HttpHeaderToStrError
  | MimeFromStrErr
  | HyperTlsError
  | OpenSSL
  | ContainerInfo (id : String)
  | CouldNotConnect (host : String)
  | NoCertPath
  | ParseError (wanted : String) (input : String)
  | SslDisabled
  | SslError (host : String)
  | UnsupportedScheme (host : String)
  | Poison (message : String)
  | Unknown (message : String)
deriving DecidableEq

/-- The display string of each ErrorKind variant, transcribed from the
fail(display) attributes of errors.rs, interpolated fields written as
string concatenation. -/
def ErrorKind.display : ErrorKind → String
  | .Io => "io error"
  | .Envvar => "envvar error"
  | .Hyper => "hyper error"
  | .Json => "json error"
  | .Docker => "docker error"
  | .Base64 => "base64 error"
  | .Response => "response error"
  | .Http => "http error"
  | .HttpUriInvalidUri => "http uri invalid error"
  | .HttpUriInvalidUriParts => "http uri invalid uri parts error"
  | .HttpHeaderToStrError => "http header to str error"
  | .MimeFromStrErr => "mime from str error"
  | .HyperTlsError => "hyper tls error"
  | .OpenSSL => "openssl error"
  | .ContainerInfo id => "could not fetch information about container \x27" ++ id ++ "\x27"
  | .CouldNotConnect host => "could not connected to Docker at \x27" ++ host ++ "\x27"
  | .NoCertPath => "could not find DOCKER_CERT_PATH"
  | .ParseError wanted _ => "could not parse JSON for " ++ wanted ++ " from Docker"
  | .SslDisabled => "Docker SSL support was disabled at compile time"
  | .SslError host => "could not connect to Docker at \x27" ++ host ++ "\x27 using SSL"
  | .UnsupportedScheme host => "do not know how to connect to Docker at \x27" ++ host ++ "\x27"
  | .Poison message => "poison error: " ++ message
  | .Unknown message => "unknown error: " ++ message

/-- True exactly on the catch-all Unknown variant. -/
def ErrorKind.isUnknown : ErrorKind → Bool
  | .Unknown _ => true
  | _ => false

/-- A dynamic Fail trait object standing for the wrapped raw failure
kept as the cause of a converted Error: one constructor per raw
external failure type that any From impl in errors.rs wraps. -/
inductive FailObj
  | ioError (e : IoError)
  | varError (e : VarError)
  | hyperError (e : HyperError)
  | serdeJsonError (e : SerdeJsonError)
  | dockerError (e : DockerError)
  | decodeError (e : DecodeError)
  | responseError (e : ResponseError)
  | httpError (e : HttpError)
  | invalidUri (e : InvalidUri)
  | invalidUriParts (e : InvalidUriParts)
  | toStrError (e : ToStrError)
  | fromStrError (e : FromStrError)
  | hyperTlsError (e : HyperTlsError)
  | errorStack (e : ErrorStack)
deriving DecidableEq

/-- The failure-crate Context over ErrorKind: the context value plus
an optional wrapped cause. Context::new stores no cause; the
Fail::context method stores the failing value as the cause. -/
structure Context where
  context : ErrorKind
  failure : Option FailObj
deriving DecidableEq

/-- Context::new: bare context, no cause. -/
def Context.new (context : ErrorKind) : Context :=
  { context := context, failure := none }

/-- Context::get_context. -/
def Context.get_context (c : Context) : ErrorKind :=
  c.context

/-- Context::cause: the wrapped failing value, when one was stored. -/
def Context.cause (c : Context) : Option FailObj :=
  c.failure

/-- Display for Context in the failure crate renders only the context
value, never the cause. -/
def Context.display (c : Context) : String :=
  c.context.display

/-- Fail::context from the failure crate: wraps the failing value as
the cause of a new Context carrying the given context value. -/
def failContext (f : FailObj) (context : ErrorKind) : Context :=
  { context := context, failure := some f }

/-- The public Error type: a struct holding inner Context of ErrorKind. -/
structure Error where
  inner : Context
deriving DecidableEq

/-- The Result alias exported by errors.rs. -/
abbrev Result (α : Type) : Type :=
  Except Error α

/-- Error::new. -/
def Error.new (inner : Context) : Error :=
  { inner := inner }

/-- The cause method of the Fail impl for Error: delegates to the
inner Context. -/
def Error.cause (e : Error) : Option FailObj :=
  e.inner.cause

/-- Error::kind: returns the classification held by the inner Context. -/
def Error.kind (e : Error) : ErrorKind :=
  e.inner.get_context

/-- Display for Error delegates to Display for the inner Context. -/
def Error.display (e : Error) : String :=
  e.inner.display

/-- impl From of ErrorKind for Error: Context::new, so no cause. -/
def Error.fromErrorKind (kind : ErrorKind) : Error :=
  { inner := Context.new kind }

/-- impl From of Context for Error. -/
def Error.fromContext (inner : Context) : Error :=
  { inner := inner }

/-- impl From of io::Error for Error. -/
def Error.fromIoError (error : IoError) : Error :=
  { inner := failContext (.ioError error) ErrorKind.Io }

/-- impl From of env::VarError for Error. -/
def Error.fromVarError (error : VarError) : Error :=
  { inner := failContext (.varError error) ErrorKind.Envvar }

/-- impl From of hyper::Error for Error. -/
def Error.fromHyperError (error : HyperError) : Error :=
  { inner := failContext (.hyperError error) ErrorKind.Hyper }

/-- impl From of serde_json::Error for Error. -/
def Error.fromSerdeJsonError (error : SerdeJsonError) : Error :=
  { inner := failContext (.serdeJsonError error) ErrorKind.Json }

/-- impl From of docker::DockerError for Error. -/
def Error.fromDockerError (error : DockerError) : Error :=
  { inner := failContext (.dockerError error) ErrorKind.Docker }

/-- impl From of base64::DecodeError for Error. -/
def Error.fromDecodeError (error : DecodeError) : Error :=
  { inner := failContext (.decodeError error) ErrorKind.Base64 }

/-- impl From of response::Error for Error. -/
def Error.fromResponseError (error : ResponseError) : Error :=
  { inner := failContext (.responseError error) ErrorKind.Response }

/-- impl From of http::Error for Error. -/
def Error.fromHttpError (error : HttpError) : Error :=
  { inner := failContext (.httpError error) ErrorKind.Http }

/-- impl From of http::uri::InvalidUri for Error. -/
def Error.fromInvalidUri (error : InvalidUri) : Error :=
  { inner := failContext (.invalidUri error) ErrorKind.HttpUriInvalidUri }

/-- impl From of http::uri::InvalidUriParts for Error. -/
def Error.fromInvalidUriParts (error : InvalidUriParts) : Error :=
  { inner := failContext (.invalidUriParts error) ErrorKind.HttpUriInvalidUriParts }

/-- impl From of http::header::ToStrError for Error. -/
def Error.fromToStrError (error : ToStrError) : Error :=
  { inner := failContext (.toStrError error) ErrorKind.HttpHeaderToStrError }

/-- impl From of mime::FromStrError for Error. -/
def Error.fromFromStrError (error : FromStrError) : Error :=
  { inner := failContext (.fromStrError error) ErrorKind.MimeFromStrErr }

/-- impl From of hyper_tls::Error for Error, compiled only with the
openssl feature. -/
def Error.fromHyperTlsError (error : HyperTlsError) : Error :=
  { inner := failContext (.hyperTlsError error) ErrorKind.HyperTlsError }

/-- impl From of openssl::error::ErrorStack for Error, compiled only
with the openssl feature. -/
def Error.fromErrorStack (error : ErrorStack) : Error :=
  { inner := failContext (.errorStack error) ErrorKind.OpenSSL }

/-- The external raw failure types for which errors.rs declares a From
impl, used to model the compile-time feature gating. -/
inductive ExternalFailureType
  | ioType
  | envvarType
  | hyperType
  | jsonType
  | dockerType
  | base64Type
  | responseType
  | httpType
  | uriInvalidType
  | uriInvalidPartsType
  | headerToStrType
  | mimeFromStrType
  | hyperTlsType
  | opensslStackType
deriving DecidableEq

/-- Whether the From impl for a given raw failure type is compiled in:
the two TLS-related impls sit behind cfg(feature = openssl), every
other impl is unconditional. -/
def conversionCompiled (opensslFeature : Bool) : ExternalFailureType → Bool
  | .hyperTlsType => opensslFeature
  | .opensslStackType => opensslFeature
  | _ => true

/-- The target ErrorKind of each From impl. -/
def conversionKind : ExternalFailureType → ErrorKind
  | .ioType => ErrorKind.Io
  | .envvarType => ErrorKind.Envvar
  | .hyperType => ErrorKind.Hyper
  | .jsonType => ErrorKind.Json
  | .dockerType => ErrorKind.Docker
  | .base64Type => ErrorKind.Base64
  | .responseType => ErrorKind.Response
  | .httpType => ErrorKind.Http
  | .uriInvalidType => ErrorKind.HttpUriInvalidUri
  | .uriInvalidPartsType => ErrorKind.HttpUriInvalidUriParts
  | .headerToStrType => ErrorKind.HttpHeaderToStrError
  | .mimeFromStrType => ErrorKind.MimeFromStrErr
  | .hyperTlsType => ErrorKind.HyperTlsError
  | .opensslStackType => ErrorKind.OpenSSL

/-- Does the needle list head-match the haystack list, i.e. is the
first list a leading segment of the second. -/
def leadMatch : List Char → List Char → Bool
  | [], _ => true
  | _ :: _, [] => false
  | a :: as, b :: bs => a == b && leadMatch as bs

/-- Does the needle occur as a contiguous segment anywhere in the
haystack. -/
def occursIn (n : List Char) : List Char → Bool
  | [] => leadMatch n []
  | c :: cs => leadMatch n (c :: cs) || occursIn n cs

/-- Substring containment on strings, via the character lists. -/
def strContains (hay needle : String) : Bool :=
  occursIn needle.data hay.data

/-- Is the first list a trailing segment of the second. -/
def tailEq (s a : List Char) : Bool :=
  leadMatch s.reverse a.reverse

/-- Some nonempty leading segment of the needle is a trailing segment
of the given list: the needle could start inside that list and spill
past its right end. -/
def spanLeft (n a : List Char) : Bool :=
  (List.range n.length).any fun k => tailEq (n.take (k + 1)) a

/-- Some nonempty proper trailing segment of the needle head-matches
the given list: the needle could end inside that list having started
to its left. -/
def spanRight (n b : List Char) : Bool :=
  (List.range n.length).any fun k => decide (k + 1 < n.length) && leadMatch (n.drop (k + 1)) b

/-- The word whose accidental appearance in displays is at issue. -/
def unknownWord : String :=
  "unknown"

/-- All string fields of a kind are free of the word unknown. -/
def fieldsClean : ErrorKind → Bool
  | .ContainerInfo id => !(strContains id unknownWord)
  | .CouldNotConnect host => !(strContains host unknownWord)
  | .ParseError wanted input =>
      !(strContains wanted unknownWord) && !(strContains input unknownWord)
  | .SslError host => !(strContains host unknownWord)
  | .UnsupportedScheme host => !(strContains host unknownWord)
  | .Poison message => !(strContains message unknownWord)
  | .Unknown message => !(strContains message unknownWord)
  | _ => true

theorem leadMatch_self_append : ∀ (x y : List Char), leadMatch x (x ++ y) = true
  | [], _ => rfl
  | c :: cs, y => by
    rw [List.cons_append]
    simp [leadMatch, leadMatch_self_append cs y]

theorem leadMatch_refl (x : List Char) : leadMatch x x = true := by
  have h := leadMatch_self_append x []
  rwa [List.append_nil] at h

theorem leadMatch_append : ∀ (x n y : List Char), leadMatch n (x ++ y) = true →
    leadMatch n x = true ∨ ∃ t, n = x ++ t ∧ leadMatch t y = true
  | [], n, _, h => Or.inr ⟨n, rfl, h⟩
  | _ :: _, [], _, _ => Or.inl rfl
  | c :: cs, d :: ds, y, h => by
    rw [List.cons_append] at h
    simp only [leadMatch, Bool.and_eq_true] at h
    obtain ⟨hdc, hrest⟩ := h
    rcases leadMatch_append cs ds y hrest with h1 | ⟨t, ht, hy⟩
    · left
      simp [leadMatch, hdc, h1]
    · right
      refine ⟨t, ?_, hy⟩
      have hd : d = c := eq_of_beq hdc
      subst hd
      rw [ht, List.cons_append]

theorem occursIn_append : ∀ (a n b : List Char), occursIn n (a ++ b) = true →
    occursIn n a = true ∨ occursIn n b = true ∨
      ∃ s t, n = s ++ t ∧ s ≠ [] ∧ t ≠ [] ∧ (∃ p, a = p ++ s) ∧ leadMatch t b = true
  | [], _, _, h => Or.inr (Or.inl h)
  | c :: cs, n, b, h => by
    rw [List.cons_append] at h
    simp only [occursIn, Bool.or_eq_true] at h
    rcases h with h | h
    · rw [← List.cons_append] at h
      rcases leadMatch_append (c :: cs) n b h with h1 | ⟨t, ht, hy⟩
      · left
        simp [occursIn, h1]
      · rcases t with _ | ⟨u, us⟩
        · left
          rw [List.append_nil] at ht
          subst ht
          simp [occursIn, leadMatch_refl]
        · right; right
          exact ⟨c :: cs, u :: us, ht, List.cons_ne_nil c cs, List.cons_ne_nil u us,
            ⟨[], rfl⟩, hy⟩
    · rcases occursIn_append cs n b h with h1 | h1 | ⟨s, t, hn, hs, ht, ⟨p, hp⟩, hb⟩
      · left
        simp [occursIn, h1]
      · right; left
        exact h1
      · right; right
        exact ⟨s, t, hn, hs, ht, ⟨c :: p, by rw [hp, List.cons_append]⟩, hb⟩

theorem occursIn_append_right : ∀ (a n b : List Char),
    occursIn n b = true → occursIn n (a ++ b) = true
  | [], _, _, h => h
  | c :: cs, n, b, h => by
    rw [List.cons_append]
    simp [occursIn, occursIn_append_right cs n b h]

theorem occursIn_head : ∀ (s q : List Char), occursIn s (s ++ q) = true
  | [], [] => rfl
  | [], _ :: _ => rfl
  | c :: cs, q => by
    rw [List.cons_append]
    simp [occursIn, leadMatch, leadMatch_self_append]

theorem tailEq_of_split (s p a : List Char) (hp : a = p ++ s) : tailEq s a = true := by
  subst hp
  unfold tailEq
  rw [List.reverse_append]
  exact leadMatch_self_append s.reverse p.reverse

theorem spanLeft_of_split (n s t a p : List Char) (hn : n = s ++ t) (hs : s ≠ [])
    (hp : a = p ++ s) : spanLeft n a = true := by
  have hpos : 0 < s.length := List.length_pos.mpr hs
  have hlen : s.length ≤ n.length := by
    rw [hn, List.length_append]
    omega
  unfold spanLeft
  refine List.any_eq_true.mpr ⟨s.length - 1, List.mem_range.mpr (by omega), ?_⟩
  have hk : s.length - 1 + 1 = s.length := by omega
  rw [hk, hn, List.take_left]
  exact tailEq_of_split s p a hp

theorem spanRight_of_split (n s t b : List Char) (hn : n = s ++ t) (hs : s ≠ [])
    (ht : t ≠ []) (hb : leadMatch t b = true) : spanRight n b = true := by
  have hpos : 0 < s.length := List.length_pos.mpr hs
  have htpos : 0 < t.length := List.length_pos.mpr ht
  have hlen : n.length = s.length + t.length := by
    rw [hn, List.length_append]
  unfold spanRight
  refine List.any_eq_true.mpr ⟨s.length - 1, List.mem_range.mpr (by omega), ?_⟩
  have hk : s.length - 1 + 1 = s.length := by omega
  rw [hk, Bool.and_eq_true]
  refine ⟨decide_eq_true (by omega), ?_⟩
  rw [hn, List.drop_left]
  exact hb

theorem occursIn_concat2_false (pre fld n : List Char)
    (hpre : occursIn n pre = false) (hfld : occursIn n fld = false)
    (hsl : spanLeft n pre = false) :
    occursIn n (pre ++ fld) = false := by
  cases hval : occursIn n (pre ++ fld) with
  | false => rfl
  | true =>
    exfalso
    rcases occursIn_append pre n fld hval with h | h | ⟨s, t, hn, hs, _, ⟨p, hp⟩, _⟩
    · rw [hpre] at h
      exact Bool.false_ne_true h
    · rw [hfld] at h
      exact Bool.false_ne_true h
    · have hcon := spanLeft_of_split n s t pre p hn hs hp
      rw [hsl] at hcon
      exact Bool.false_ne_true hcon

theorem occursIn_concat2r_false (fld post n : List Char)
    (hfld : occursIn n fld = false) (hpost : occursIn n post = false)
    (hsr : spanRight n post = false) :
    occursIn n (fld ++ post) = false := by
  cases hval : occursIn n (fld ++ post) with
  | false => rfl
  | true =>
    exfalso
    rcases occursIn_append fld n post hval with h | h | ⟨s, t, hn, hs, ht, _, hb⟩
    · rw [hfld] at h
      exact Bool.false_ne_true h
    · rw [hpost] at h
      exact Bool.false_ne_true h
    · have hcon := spanRight_of_split n s t post hn hs ht hb
      rw [hsr] at hcon
      exact Bool.false_ne_true hcon

theorem string_data_append (s t : String) : (s ++ t).data = s.data ++ t.data := rfl

theorem strContains_concat3_false (pre fld post : String)
    (hfld : strContains fld unknownWord = false)
    (hpre : occursIn unknownWord.data pre.data = false)
    (hpost : occursIn unknownWord.data post.data = false)
    (hsl : spanLeft unknownWord.data pre.data = false)
    (hsr : spanRight unknownWord.data post.data = false) :
    strContains (pre ++ fld ++ post) unknownWord = false := by
  show occursIn unknownWord.data (pre ++ fld ++ post).data = false
  rw [string_data_append, string_data_append, List.append_assoc]
  exact occursIn_concat2_false pre.data (fld.data ++ post.data) unknownWord.data hpre
    (occursIn_concat2r_false fld.data post.data unknownWord.data hfld hpost hsr) hsl

theorem strContains_concat2_false (pre fld : String)
    (hfld : strContains fld unknownWord = false)
    (hpre : occursIn unknownWord.data pre.data = false)
    (hsl : spanLeft unknownWord.data pre.data = false) :
    strContains (pre ++ fld) unknownWord = false := by
  show occursIn unknownWord.data (pre ++ fld).data = false
  rw [string_data_append]
  exact occursIn_concat2_false pre.data fld.data unknownWord.data hpre hfld hsl

theorem strContains_mid (pre fld post : String) :
    strContains (pre ++ fld ++ post) fld = true := by
  show occursIn fld.data (pre ++ fld ++ post).data = true
  rw [string_data_append, string_data_append, List.append_assoc]
  exact occursIn_append_right pre.data fld.data (fld.data ++ post.data)
    (occursIn_head fld.data post.data)

/-- C1: each of the twelve unconditional From conversions is a pure, total,
deterministic function, and for every value of the raw failure type the
converted Error has exactly the single documented ErrorKind for that type. -/
theorem claim_conversion_kinds :
    (∀ e : IoError, (Error.fromIoError e).kind = ErrorKind.Io) ∧
    (∀ e : VarError, (Error.fromVarError e).kind = ErrorKind.Envvar) ∧
    (∀ e : HyperError, (Error.fromHyperError e).kind = ErrorKind.Hyper) ∧
    (∀ e : SerdeJsonError, (Error.fromSerdeJsonError e).kind = ErrorKind.Json) ∧
    (∀ e : DockerError, (Error.fromDockerError e).kind = ErrorKind.Docker) ∧
    (∀ e : DecodeError, (Error.fromDecodeError e).kind = ErrorKind.Base64) ∧
    (∀ e : ResponseError, (Error.fromResponseError e).kind = ErrorKind.Response) ∧
    (∀ e : HttpError, (Error.fromHttpError e).kind = ErrorKind.Http) ∧
    (∀ e : InvalidUri, (Error.fromInvalidUri e).kind = ErrorKind.HttpUriInvalidUri) ∧
    (∀ e : InvalidUriParts,
      (Error.fromInvalidUriParts e).kind = ErrorKind.HttpUriInvalidUriParts) ∧
    (∀ e : ToStrError, (Error.fromToStrError e).kind = ErrorKind.HttpHeaderToStrError) ∧
    (∀ e : FromStrError, (Error.fromFromStrError e).kind = ErrorKind.MimeFromStrErr) :=
  ⟨fun _ => rfl, fun _ => rfl, fun _ => rfl, fun _ => rfl, fun _ => rfl, fun _ => rfl,
    fun _ => rfl, fun _ => rfl, fun _ => rfl, fun _ => rfl, fun _ => rfl, fun _ => rfl⟩

/-- C2: for every supported raw failure value, converting it and then reading
the cause accessor returns exactly the original raw failure value that was
supplied, wrapped as the stored cause. -/
theorem claim_cause_round_trip :
    (∀ e : IoError, (Error.fromIoError e).cause = some (FailObj.ioError e)) ∧
    (∀ e : VarError, (Error.fromVarError e).cause = some (FailObj.varError e)) ∧
    (∀ e : HyperError, (Error.fromHyperError e).cause = some (FailObj.hyperError e)) ∧
    (∀ e : SerdeJsonError,
      (Error.fromSerdeJsonError e).cause = some (FailObj.serdeJsonError e)) ∧
    (∀ e : DockerError, (Error.fromDockerError e).cause = some (FailObj.dockerError e)) ∧
    (∀ e : DecodeError, (Error.fromDecodeError e).cause = some (FailObj.decodeError e)) ∧
    (∀ e : ResponseError,
      (Error.fromResponseError e).cause = some (FailObj.responseError e)) ∧
    (∀ e : HttpError, (Error.fromHttpError e).cause = some (FailObj.httpError e)) ∧
    (∀ e : InvalidUri, (Error.fromInvalidUri e).cause = some (FailObj.invalidUri e)) ∧
    (∀ e : InvalidUriParts,
      (Error.fromInvalidUriParts e).cause = some (FailObj.invalidUriParts e)) ∧
    (∀ e : ToStrError, (Error.fromToStrError e).cause = some (FailObj.toStrError e)) ∧
    (∀ e : FromStrError,
      (Error.fromFromStrError e).cause = some (FailObj.fromStrError e)) ∧
    (∀ e : HyperTlsError,
      (Error.fromHyperTlsError e).cause = some (FailObj.hyperTlsError e)) ∧
    (∀ e : ErrorStack, (Error.fromErrorStack e).cause = some (FailObj.errorStack e)) :=
  ⟨fun _ => rfl, fun _ => rfl, fun _ => rfl, fun _ => rfl, fun _ => rfl, fun _ => rfl,
    fun _ => rfl, fun _ => rfl, fun _ => rfl, fun _ => rfl, fun _ => rfl, fun _ => rfl,
    fun _ => rfl, fun _ => rfl⟩

/-- C3: displaying an Error renders exactly the display string of its
contained kind and is independent of the stored cause; for an Error
converted from a serde_json failure the kind is Json, the display is the
fixed string json error, and the cause is the original parse failure. -/
theorem claim_display_renders_kind :
    (∀ er : Error, er.display = er.kind.display) ∧
    (∀ (k : ErrorKind) (c₁ c₂ : Option FailObj),
      (Error.new { context := k, failure := c₁ }).display
        = (Error.new { context := k, failure := c₂ }).display) ∧
    (∀ e : SerdeJsonError,
      (Error.fromSerdeJsonError e).kind = ErrorKind.Json ∧
      (Error.fromSerdeJsonError e).display = "json error" ∧
      (Error.fromSerdeJsonError e).cause = some (FailObj.serdeJsonError e)) :=
  ⟨fun _ => rfl, fun _ _ _ => rfl, fun _ => ⟨rfl, rfl, rfl⟩⟩

/-- C4: an Error constructed directly from a bare ErrorKind stores no cause,
so the cause accessor returns none. -/
theorem claim_bare_kind_no_cause :
    ∀ k : ErrorKind, (Error.fromErrorKind k).cause = none :=
  fun _ => rfl

/-- C5: with the openssl feature off, the two TLS conversions are not
compiled so no code path reaches them, while the SslDisabled kind still
constructs; with the feature on, hyper_tls and openssl failures convert to
the distinct kinds HyperTlsError and OpenSSL, which differ from each other
and from the generic transport kind Hyper. -/
theorem claim_tls_feature_gating :
    conversionCompiled false ExternalFailureType.hyperTlsType = false ∧
    conversionCompiled false ExternalFailureType.opensslStackType = false ∧
    (Error.fromErrorKind ErrorKind.SslDisabled).kind = ErrorKind.SslDisabled ∧
    (∀ e : HyperTlsError, (Error.fromHyperTlsError e).kind = ErrorKind.HyperTlsError) ∧
    (∀ e : ErrorStack, (Error.fromErrorStack e).kind = ErrorKind.OpenSSL) ∧
    ErrorKind.HyperTlsError ≠ ErrorKind.OpenSSL ∧
    ErrorKind.HyperTlsError ≠ ErrorKind.Hyper ∧
    ErrorKind.OpenSSL ≠ ErrorKind.Hyper :=
  ⟨rfl, rfl, rfl, fun _ => rfl, fun _ => rfl, by decide, by decide, by decide⟩

/-- C6 counterexample: a ContainerInfo kind whose id field is the word
unknown is not the catch-all variant, yet its display contains the word
unknown, refuting the claim as stated for all field values. -/
theorem claim_unknown_word_counterexample :
    (ErrorKind.ContainerInfo "unknown").isUnknown = false ∧
    strContains (Error.fromErrorKind (ErrorKind.ContainerInfo "unknown")).display
      unknownWord = true := by
  constructor
  · rfl
  · decide

/-- C6 amended: for every ErrorKind whose string fields do not themselves
contain the word unknown, the display of an Error built from it never
contains the word unknown unless the kind is the catch-all Unknown. -/
theorem claim_unknown_word_only_catch_all (k : ErrorKind)
    (hclean : fieldsClean k = true) (hk : k.isUnknown = false) :
    strContains (Error.fromErrorKind k).display unknownWord = false := by
  cases k with
  | Io => decide
  | Envvar => decide
  | Hyper => decide
  | Json => decide
  | Docker => decide
  | Base64 => decide
  | Response => decide
  | Http => decide
  | HttpUriInvalidUri => decide
  | HttpUriInvalidUriParts => decide
  | HttpHeaderToStrError => decide
  | MimeFromStrErr => decide
  | HyperTlsError => decide
  | OpenSSL => decide
  | NoCertPath => decide
  | SslDisabled => decide
  | ContainerInfo id =>
    have hid : strContains id unknownWord = false := by
      simpa [fieldsClean] using hclean
    exact strContains_concat3_false "could not fetch information about container \x27"
      id "\x27" hid (by decide) (by decide) (by decide) (by decide)
  | CouldNotConnect host =>
    have hh : strContains host unknownWord = false := by
      simpa [fieldsClean] using hclean
    exact strContains_concat3_false "could not connected to Docker at \x27"
      host "\x27" hh (by decide) (by decide) (by decide) (by decide)
  | ParseError wanted input =>
    have h2 := hclean
    simp only [fieldsClean, Bool.and_eq_true] at h2
    have hw : strContains wanted unknownWord = false := by simpa using h2.1
    exact strContains_concat3_false "could not parse JSON for "
      wanted " from Docker" hw (by decide) (by decide) (by decide) (by decide)
  | SslError host =>
    have hh : strContains host unknownWord = false := by
      simpa [fieldsClean] using hclean
    exact strContains_concat3_false "could not connect to Docker at \x27"
      host "\x27 using SSL" hh (by decide) (by decide) (by decide) (by decide)
  | UnsupportedScheme host =>
    have hh : strContains host unknownWord = false := by
      simpa [fieldsClean] using hclean
    exact strContains_concat3_false "do not know how to connect to Docker at \x27"
      host "\x27" hh (by decide) (by decide) (by decide) (by decide)
  | Poison message =>
    have hm : strContains message unknownWord = false := by
      simpa [fieldsClean] using hclean
    exact strContains_concat2_false "poison error: " message hm (by decide) (by decide)
  | Unknown message => simp [ErrorKind.isUnknown] at hk

/-- C6 witness: the amended theorem applied at a concrete clean kind. -/
theorem claim_unknown_word_only_catch_all_witness :
    fieldsClean (ErrorKind.ContainerInfo "abc123") = true ∧
    (ErrorKind.ContainerInfo "abc123").isUnknown = false ∧
    strContains (Error.fromErrorKind (ErrorKind.ContainerInfo "abc123")).display
      unknownWord = false :=
  ⟨by decide, by decide,
    claim_unknown_word_only_catch_all (ErrorKind.ContainerInfo "abc123")
      (by decide) (by decide)⟩

/-- C7: the two URI-related raw failure types convert to the two distinct
kinds HttpUriInvalidUri and HttpUriInvalidUriParts, which are never equal. -/
theorem claim_uri_kinds_distinct :
    (∀ e : InvalidUri, (Error.fromInvalidUri e).kind = ErrorKind.HttpUriInvalidUri) ∧
    (∀ e : InvalidUriParts,
      (Error.fromInvalidUriParts e).kind = ErrorKind.HttpUriInvalidUriParts) ∧
    ErrorKind.HttpUriInvalidUri ≠ ErrorKind.HttpUriInvalidUriParts :=
  ⟨fun _ => rfl, fun _ => rfl, by decide⟩

/-- C8: structured kinds carry their fields verbatim in the display: any
container id appears in the ContainerInfo display and any host string
appears in the CouldNotConnect display. -/
theorem claim_structured_fields_in_display :
    (∀ id : String,
      strContains (Error.fromErrorKind (ErrorKind.ContainerInfo id)).display id = true) ∧
    (∀ host : String,
      strContains (Error.fromErrorKind (ErrorKind.CouldNotConnect host)).display
        host = true) :=
  ⟨fun id => strContains_mid "could not fetch information about container \x27" id "\x27",
    fun host => strContains_mid "could not connected to Docker at \x27" host "\x27"⟩

/-- C9: building an Error from a bare kind and reading the kind back returns
exactly the supplied kind, for every ErrorKind value. -/
theorem claim_kind_round_trip : ∀ k : ErrorKind, (Error.fromErrorKind k).kind = k :=
  fun _ => rfl

/-- C10: the display of a ParseError kind does not depend on the stored raw
input: any two inputs yield the same rendered string, which interpolates
only the wanted schema name. -/
theorem claim_parse_error_display_input_independent :
    (∀ wanted i₁ i₂ : String,
      (Error.fromErrorKind (ErrorKind.ParseError wanted i₁)).display
        = (Error.fromErrorKind (ErrorKind.ParseError wanted i₂)).display) ∧
    (∀ wanted input : String,
      (Error.fromErrorKind (ErrorKind.ParseError wanted input)).display
        = "could not parse JSON for " ++ wanted ++ " from Docker") :=
  ⟨fun _ _ _ => rfl, fun _ _ => rfl⟩

end Dockworker
